import Mathlib

/-!
Shallow embedding of `cookie_eater/base.py` (the CookieEater repository).

The Python module defines a single class `CookieManager` whose methods open a
short-lived sqlite connection, run browser-specific SQL primitives supplied by
subclasses, commit, and close.  We embed:

* exceptions as an inductive `PyErr` (`BrowserException` and its subclasses
  `InvalidSchema` and `MissingCookiesDB`, plus `raw` for exceptions outside
  that family, e.g. sqlite driver errors or subclass exceptions that the core
  does not wrap);
* the connection lifecycle as a trace of `Event`s (`opn` = connection opened,
  `commit` = successful commit, `close` = connection closed), so that the
  "connections are always closed" and "read-only" properties are statable;
* the committed database as a `List Row`; cursor work inside an operation acts
  on a pending copy which becomes the committed state only at a successful
  commit (closing without commit rolls back, as sqlite does);
* the browser-specific subclass primitives as a `Backend` record of
  `Except`-returning functions, mirroring `_insert_command`, `_delete_command`,
  `_limited_select_command`, `_match_command` and `_row_to_dict`.
-/

namespace CookieEater

/-- Python exception values relevant to `base.py`: the `BrowserException`
family (with subclasses `InvalidSchema`, `MissingCookiesDB`) and `raw` for any
exception outside that family (sqlite driver errors, subclass errors the core
does not wrap). -/
inductive PyErr : Type where
  | browser (msg : String)
  | invalidSchema (msg : String)
  | missingDB (msg : String)
  | raw (msg : String)
deriving DecidableEq, Repr

/-- Connection-lifecycle events of one operation: connection opened,
changes committed, connection closed. -/
inductive Event : Type where
  | opn
  | commit
  | close
deriving DecidableEq, Repr

/-- Whether an operation result is a `BrowserException`-family error
(`BrowserException` itself or one of its subclasses). -/
def resIsBrowserFamily {α : Type} : Except PyErr α → Bool
  | .error (.browser _) => true
  | .error (.invalidSchema _) => true
  | .error (.missingDB _) => true
  | _ => false

/-- Whether an operation result is the plain `BrowserException` error. -/
def resIsBrowser {α : Type} : Except PyErr α → Bool
  | .error (.browser _) => true
  | _ => false

/-- Whether an operation result is an `InvalidSchema` error. -/
def resIsInvalidSchema {α : Type} : Except PyErr α → Bool
  | .error (.invalidSchema _) => true
  | _ => false

/-- Whether an operation result is a `MissingCookiesDB` error. -/
def resIsMissing {α : Type} : Except PyErr α → Bool
  | .error (.missingDB _) => true
  | _ => false

/-- Whether an operation result is an unwrapped (non-`BrowserException`)
exception. -/
def resIsRaw {α : Type} : Except PyErr α → Bool
  | .error (.raw _) => true
  | _ => false

/-- Whether an operation result is a success. -/
def resIsOk {α : Type} : Except PyErr α → Bool
  | .ok _ => true
  | _ => false

/-- Case-sensitive substring test on character lists (Python's `in` on
strings). -/
def isSubstrList (needle hay : List Char) : Bool :=
  (List.range (hay.length + 1)).any (fun i => needle.isPrefixOf (hay.drop i))

/-- Python `needle in hay` for strings. -/
def substrB (needle hay : String) : Bool :=
  isSubstrList needle.data hay.data

/-- Python `str.lower()` (ASCII-adequate model via `Char.toLower`). -/
def lowerStr (s : String) : String :=
  String.mk (s.data.map Char.toLower)

/-- Python `needle.lower() in hay.lower()`: case-folded substring test used by
`find_cookies`. -/
def containsCI (hay needle : String) : Bool :=
  substrB (lowerStr needle) (lowerStr hay)

/-- `get_platform` from `base.py`: classifies `sys.platform` into
`linux` / `mac` / `windows`, raising `BrowserException` otherwise. -/
def get_platform (sysPlatform : String) : Except PyErr String :=
  if substrB "linux" sysPlatform then .ok "linux"
  else if substrB "darwin" sysPlatform then .ok "mac"
  else if sysPlatform = "win32" ∨ sysPlatform = "cygwin" then .ok "windows"
  else .error (.browser "Unsupported Platform for automation profile gathering")

/-- One row of the cookie table as the core sees candidate rows in
`find_cookies`: index 0 is the rowid, indexes 1..3 are host, name and value. -/
structure Row : Type where
  rowid : Nat
  host : String
  name : String
  value : String
deriving DecidableEq, Repr

/-- The logical cookie record produced by `_row_to_dict`: the documented
contract is that `host`, `name` and `value` are present. -/
structure CookieRecord : Type where
  host : String
  name : String
  value : String
deriving DecidableEq, Repr

/-- The logical arguments of `add_cookie` / `update_cookie`. -/
structure CookieArgs : Type where
  host : String
  name : String
  value : String
  path : String
  secure : Bool
  httpOnly : Bool
deriving DecidableEq, Repr

/-- The capability set each browser subclass supplies (`_insert_command`,
`_delete_command`, `_limited_select_command`, `_match_command`,
`_row_to_dict`).  Each may raise (`.error`), modelling a Python exception.
`matchCmd none` is the `_match_command(cur, 1, 1)` call used by `dump`
(all rows); `matchCmd (some rid)` is the by-rowid fetch used by
`find_cookies`. -/
structure Backend : Type where
  insertCmd : List Row → CookieArgs → Except String (List Row)
  deleteCmd : List Row → String → String → Except String (List Row)
  limitedSelect : List Row → Except String (List Row)
  matchCmd : List Row → Option Nat → Except String (List Row)
  rowToDict : Option Row → Except String CookieRecord

/-- Result of one accessor operation: the Python return/raise, the committed
database afterwards, and the connection-lifecycle trace. -/
structure OpResult (α : Type) : Type where
  res : Except PyErr α
  db : List Row
  trace : List Event
deriving Repr

/-- `CookieManager.add_cookie`: open, run the subclass insert (failures are
wrapped in `BrowserException`), commit (failures wrapped with the
"is browser open?" message), close in a `finally`. -/
def add_cookie (b : Backend) (db : List Row) (a : CookieArgs)
    (commitOk : Bool) : OpResult Unit :=
  match b.insertCmd db a with
  | .error e => ⟨.error (.browser e), db, [Event.opn, Event.close]⟩
  | .ok pending =>
    if commitOk then ⟨.ok (), pending, [Event.opn, Event.commit, Event.close]⟩
    else ⟨.error (.browser "Could not commit changes to database, is browser open?"),
          db, [Event.opn, Event.close]⟩

/-- `CookieManager.delete_cookie`: same shape as `add_cookie` with the
subclass delete primitive. -/
def delete_cookie (b : Backend) (db : List Row) (host name : String)
    (commitOk : Bool) : OpResult Unit :=
  match b.deleteCmd db host name with
  | .error e => ⟨.error (.browser e), db, [Event.opn, Event.close]⟩
  | .ok pending =>
    if commitOk then ⟨.ok (), pending, [Event.opn, Event.commit, Event.close]⟩
    else ⟨.error (.browser "Could not commit changes to database, is browser open?"),
          db, [Event.opn, Event.close]⟩

/-- `CookieManager.update_cookie`: delete then insert on one connection.
A delete failure is swallowed when `ignore_missing`; otherwise it is re-raised
as `BrowserException` — and in the source this raise happens in a `try` block
that has no `finally`, so on that path the connection is never closed (the
trace is `[opn]` with no `close`). -/
def update_cookie (b : Backend) (db : List Row) (a : CookieArgs)
    (ignore_missing : Bool) (commitOk : Bool) : OpResult Unit :=
  match b.deleteCmd db a.host a.name with
  | .error e =>
    if ignore_missing then
      match b.insertCmd db a with
      | .error e2 => ⟨.error (.browser e2), db, [Event.opn, Event.close]⟩
      | .ok p2 =>
        if commitOk then ⟨.ok (), p2, [Event.opn, Event.commit, Event.close]⟩
        else ⟨.error (.browser "Could not commit changes to database, is browser open?"),
              db, [Event.opn, Event.close]⟩
    else ⟨.error (.browser e), db, [Event.opn]⟩
  | .ok pending =>
    match b.insertCmd pending a with
    | .error e2 => ⟨.error (.browser e2), db, [Event.opn, Event.close]⟩
    | .ok p2 =>
      if commitOk then ⟨.ok (), p2, [Event.opn, Event.commit, Event.close]⟩
      else ⟨.error (.browser "Could not commit changes to database, is browser open?"),
            db, [Event.opn, Event.close]⟩

/-- The in-line matcher of `find_cookies`: a candidate row matches when any
supplied (non-empty) filter is a case-folded substring of the corresponding
field (three independent `if`s in the source — logical OR). -/
def rowMatches (host name value : String) (r : Row) : Bool :=
  (!(host == "") && containsCI r.host host) ||
  (!(name == "") && containsCI r.name name) ||
  (!(value == "") && containsCI r.value value)

/-- Outcome of the per-rowid refetch loop of `find_cookies`: all conversions
succeeded, or `_match_command` raised (caught: connection closed and the error
wrapped), or `_row_to_dict` raised (in the `else:` block — uncaught, so the
raw error escapes and the connection is not closed). -/
inductive FetchOut : Type where
  | ok (recs : List CookieRecord)
  | matchErr (e : String)
  | convErr (e : String)
deriving Repr

/-- The refetch loop of `find_cookies`: for each collected rowid run the
subclass `_match_command`, `fetchone()` the row, and convert it with
`_row_to_dict`. -/
def findFetch (b : Backend) (db : List Row) : List Nat → FetchOut
  | [] => .ok []
  | rid :: rest =>
    match b.matchCmd db (some rid) with
    | .error e => .matchErr e
    | .ok fetched =>
      match b.rowToDict fetched.head? with
      | .error e => .convErr e
      | .ok c =>
        match findFetch b db rest with
        | .ok recs => .ok (c :: recs)
        | out => out

/-- `CookieManager.find_cookies`: raise `BrowserException` when no filter is
given (before any connection is opened); otherwise run the limited candidate
select, collect rowids of matching candidates in order, refetch each by rowid
and convert.  `_match_command` failures close the connection and are wrapped;
`_row_to_dict` failures escape raw without closing. -/
def find_cookies (b : Backend) (db : List Row) (host name value : String) :
    OpResult (List CookieRecord) :=
  if host = "" ∧ name = "" ∧ value = "" then
    ⟨.error (.browser "Please specify something to search by"), db, []⟩
  else
    match b.limitedSelect db with
    | .error e => ⟨.error (.browser e), db, [Event.opn, Event.close]⟩
    | .ok rows =>
      match findFetch b db ((rows.filter (rowMatches host name value)).map Row.rowid) with
      | .ok recs => ⟨.ok recs, db, [Event.opn, Event.close]⟩
      | .matchErr e => ⟨.error (.browser e), db, [Event.opn, Event.close]⟩
      | .convErr e => ⟨.error (.raw e), db, [Event.opn]⟩

/-- The conversion loop of `dump`: convert each row with `_row_to_dict`;
a conversion failure aborts with the raw error. -/
def dumpRows (b : Backend) : List Row → Except String (List CookieRecord)
  | [] => .ok []
  | r :: rest =>
    match b.rowToDict (some r) with
    | .error e => .error e
    | .ok c =>
      match dumpRows b rest with
      | .error e => .error e
      | .ok recs => .ok (c :: recs)

/-- `CookieManager.dump`: `_match_command(cur, 1, 1)` fetches every row; a
failure there is wrapped in `BrowserException`; the conversion happens in the
`else:` block so a `_row_to_dict` failure escapes raw — but the `finally`
still closes the connection. -/
def dump (b : Backend) (db : List Row) : OpResult (List CookieRecord) :=
  match b.matchCmd db none with
  | .error e => ⟨.error (.browser e), db, [Event.opn, Event.close]⟩
  | .ok rows =>
    match dumpRows b rows with
    | .error e => ⟨.error (.raw e), db, [Event.opn, Event.close]⟩
    | .ok recs => ⟨.ok recs, db, [Event.opn, Event.close]⟩

/-- The largest rowid in the database plus one: the rowid sqlite assigns to a
freshly inserted row. -/
def freshRowid (db : List Row) : Nat :=
  (db.map Row.rowid).foldr max 0 + 1

/-- Converts a raw row to the logical record shape (the pure part of a
subclass `_row_to_dict`). -/
def rowToRecord (r : Row) : CookieRecord :=
  ⟨r.host, r.name, r.value⟩

/-- Modelled from the spec: the browser-specific subclass primitives
(`_insert_command`, `_delete_command`, `_limited_select_command`,
`_match_command`, `_row_to_dict`) are supplied by browser subclasses that are
not part of `base.py`.  Per the spec, the insert translates the logical fields
into one new native row; the delete requires an exact (not fuzzy) match on
host and name and the delete step fails when there is no cookie to remove
(this is what `update(ignoreMissing=false)` on a non-existent pair failing
relies on); the candidate select fetches a bounded/limited row set (here the
first `k` rows); the by-rowid match returns the rows with that rowid; and the
converter produces a mapping with host, name and value (raising on a `None`
row, as indexing into `None` does). -/
def specBackend (k : Nat) : Backend where
  insertCmd db a :=
    .ok (db ++ [⟨freshRowid db, a.host, a.name, a.value⟩])
  deleteCmd db host name :=
    if ∃ r ∈ db, r.host = host ∧ r.name = name then
      .ok (db.filter (fun r => !(r.host == host && r.name == name)))
    else .error ("no cookie matching " ++ host ++ " " ++ name)
  limitedSelect db := .ok (db.take k)
  matchCmd db rid? :=
    match rid? with
    | some rid => .ok (db.filter (fun r => r.rowid == rid))
    | none => .ok db
  rowToDict r? :=
    match r? with
    | some r => .ok (rowToRecord r)
    | none => .error "NoneType is not subscriptable"

/-- A backend whose row converter always raises, exercising the uncaught
`_row_to_dict` path of `find_cookies` and `dump`. -/
def badConvBackend : Backend where
  insertCmd db _ := .ok db
  deleteCmd db _ _ := .ok db
  limitedSelect db := .ok db
  matchCmd db _ := .ok db
  rowToDict _ := .error "boom"

/-- A backend whose row converter always succeeds (with a fixed record). -/
def goodConvBackend : Backend where
  insertCmd db _ := .ok db
  deleteCmd db _ _ := .ok db
  limitedSelect db := .ok db
  matchCmd db _ := .ok db
  rowToDict _ := .ok ⟨"h", "n", "v"⟩

/-- A concrete argument record used in concrete evaluations. -/
def sampleArgs : CookieArgs :=
  ⟨"example.com", "sid", "abc123", "/", false, false⟩

/-! ## Schema verification and construction (`__init__`, `verify_schema`,
`_correct_tables_and_titles`, `find_db`) -/

/-- The declared expected shape (`_valid_structure`): expected table-name list
and expected ordered column-name list of the cookie table. -/
structure Schema : Type where
  tables : List String
  columns : List String
deriving DecidableEq, Repr

/-- The live database's structural shape: its table names and, per table, its
column names. -/
structure LiveDb : Type where
  tables : List String
  cols : String → List String

/-- The live shape sqlite presents for a path with no file: connecting creates
a fresh empty database (no tables). -/
def emptyLive : LiveDb :=
  ⟨[], fun _ => []⟩

/-- `CookieManager._correct_tables_and_titles`: list the table names, then run
`SELECT * FROM <table_name> LIMIT 1` — which raises a raw
`sqlite3.OperationalError` when the designated table does not exist, before
either comparison happens — then compare tables and columns against the
declared schema, raising `InvalidSchema` on mismatch. -/
def correct_tables_and_titles (s : Schema) (table_name : String)
    (d : LiveDb) : Except PyErr Unit :=
  if table_name ∉ d.tables then
    .error (.raw ("no such table: " ++ table_name))
  else if d.tables ≠ s.tables then
    .error (.invalidSchema "Tables expected do not match tables got")
  else if d.cols table_name ≠ s.columns then
    .error (.invalidSchema "Columns expected do not match columns got")
  else .ok ()

/-- Result of `verify_schema`: the outcome plus the connection trace (the
source closes the connection in a `finally`, so the trace is always
`[opn, close]`). -/
structure VerifyResult : Type where
  res : Except PyErr Unit
  trace : List Event

/-- `CookieManager.verify_schema`: open a connection, check the shape, close
in a `finally`. -/
def verify_schema (s : Schema) (table_name : String) (d : LiveDb) :
    VerifyResult :=
  ⟨correct_tables_and_titles s table_name d, [Event.opn, Event.close]⟩

/-- `CookieManager.find_db`: resolve the platform, look the path template up
in `_db_paths` (a missing key is a raw `KeyError`), expand it (modelling
`os.path.expanduser` composed with `_find_db_extra`), and raise
`MissingCookiesDB` when no file exists there. -/
def find_db (sysPlatform : String) (dbPaths : String → Option String)
    (expand : String → String) (fileExists : String → Bool) :
    Except PyErr String :=
  match get_platform sysPlatform with
  | .error e => .error e
  | .ok plat =>
    match dbPaths plat with
    | none => .error (.raw ("KeyError: " ++ plat))
    | some template =>
      let p := expand template
      if fileExists p then .ok p
      else .error (.missingDB ("Cookie does not exist at " ++ p))

/-- Opening a sqlite connection to a path: the live shape of the stored file,
or a fresh empty database when no file exists there (sqlite creates one). -/
def openLive (fs : String → Option LiveDb) (p : String) : LiveDb :=
  (fs p).getD emptyLive

/-- `CookieManager.__init__`: `self.db = db if db else self.find_db()`
followed by `self.verify_schema()`.  Returns the path of the verified
accessor, or the first error raised. -/
def cookie_manager_init (s : Schema) (table_name : String)
    (db? : Option String) (sysPlatform : String)
    (dbPaths : String → Option String) (expand : String → String)
    (fileExists : String → Bool) (fs : String → Option LiveDb) :
    Except PyErr String :=
  match (match db? with
         | some d => Except.ok d
         | none => find_db sysPlatform dbPaths expand fileExists) with
  | .error e => .error e
  | .ok p =>
    match (verify_schema s table_name (openLive fs p)).res with
    | .error e => .error e
    | .ok _ => .ok p

/-- A concrete expected schema used in concrete evaluations (shaped like a
Firefox cookie store). -/
def exSchema : Schema :=
  ⟨["moz_cookies"], ["id", "host", "name", "value"]⟩

/-! ## Timestamp helpers (`_current_time`, `_expire_time`)

Both helpers compute `str(_to_secs(utcnow() - epoch))`, drop the decimal
point, truncate to a fixed number of characters and right-pad with zeros, and
read the result back as an integer.  Elapsed time since the epoch is
microsecond-resolution (`datetime` arithmetic), so we model an instant as the
number of elapsed microseconds and the float's `str` as the exact decimal
form `"<seconds>.<fraction with trailing zeros stripped>"` — which is what
Python prints for the values used in the concrete evaluations below. -/

/-- Strips trailing `'0'` characters. -/
def stripZeros (l : List Char) : List Char :=
  (l.reverse.dropWhile (fun c => c == '0')).reverse

/-- The decimal string Python's `str` produces for
`total_seconds()` of a microsecond-resolution elapsed time:
integer seconds, a dot, and the 6-digit microsecond field with trailing
zeros stripped (`"…⁠.0"` when the fraction is zero). -/
def strOfMicros (us : Nat) : String :=
  let secs := us / 1000000
  let frac := us % 1000000
  let sd := Nat.toDigits 10 secs
  let fd0 := Nat.toDigits 10 frac
  let fd6 := List.replicate (6 - fd0.length) '0' ++ fd0
  let fd := stripZeros fd6
  String.mk (sd ++ '.' :: (if fd.isEmpty then ['0'] else fd))

/-- Numeric value of a decimal digit character. -/
def digitVal (c : Char) : Nat :=
  c.toNat - '0'.toNat

/-- Reads a list of decimal digit characters back as a number (Python's
`int(...)`). -/
def digitsToNat (l : List Char) : Nat :=
  l.foldl (fun a c => 10 * a + digitVal c) 0

/-- The shared encoding step of both helpers:
`int(str(secs).replace(".", "")[:length].ljust(length, "0"))`. -/
def fixed_width_int (s : String) (length : Nat) : Nat :=
  let ds := s.data.filter (fun c => !(c == '.'))
  let t := ds.take length
  digitsToNat (t ++ List.replicate (length - t.length) '0')

/-- `CookieManager._current_time` without its `@unique` wrapper: the
fixed-width integer encoding of the elapsed time since the epoch (default
length 16), as a function of the elapsed microseconds. -/
def current_time (us : Nat) (length : Nat) : Nat :=
  fixed_width_int (strOfMicros us) length

/-- `CookieManager._expire_time`: the same encoding of elapsed time plus
`expires_in` (default length 10).  It has no `@unique` wrapper. -/
def expire_time (us expiresUs : Nat) (length : Nat) : Nat :=
  fixed_width_int (strOfMicros (us + expiresUs)) length

/-- Modelled from the spec: the `@unique(wait=1, exception=BrowserException,
error_text="Could not generate unique timestamp")` decorator (from the
external `reusables` package) that wraps `_current_time`: recompute while the
fresh value collides with a previously returned one, and raise the configured
exception after the bounded retries are exhausted.  `gen k` is the value the
wrapped function produces at the `k`-th remaining-retry count (wall time
advances between attempts); `seen` is the cache of previously returned
values. -/
def uniqueGuard (gen : Nat → Nat) (seen : List Nat) : Nat → Except PyErr Nat
  | 0 => .error (.browser "Could not generate unique timestamp")
  | Nat.succ kk =>
    if gen kk ∈ seen then uniqueGuard gen seen kk else .ok (gen kk)

/-- `_current_time` as called through its `@unique` decorator: `times kk` is
the elapsed-microseconds reading at attempt `kk`. -/
def current_time_guarded (times : Nat → Nat) (seen : List Nat)
    (retries : Nat) : Except PyErr Nat :=
  uniqueGuard (fun kk => current_time (times kk) 16) seen retries

/-- Decidable equality for `Except` results, so concrete runs can be checked
by `decide`. -/
instance exceptDecEq {ε α : Type} [DecidableEq ε] [DecidableEq α] :
    DecidableEq (Except ε α) := fun x y =>
  match x, y with
  | .ok a, .ok b =>
    if h : a = b then .isTrue (by rw [h])
    else .isFalse (fun hc => h (Except.ok.inj hc))
  | .error a, .error b =>
    if h : a = b then .isTrue (by rw [h])
    else .isFalse (fun hc => h (Except.error.inj hc))
  | .ok _, .error _ => .isFalse (fun hc => Except.noConfusion hc)
  | .error _, .ok _ => .isFalse (fun hc => Except.noConfusion hc)

/-- A trace is connection-balanced when it closes as many connections as it
opens. -/
def closedBalanced (t : List Event) : Bool :=
  t.count Event.opn == t.count Event.close

/-- Whether a subclass-primitive call succeeded. -/
def strOk {α : Type} : Except String α → Bool
  | .ok _ => true
  | _ => false

/-- A concrete live database shape matching `exSchema`. -/
def exLive : LiveDb :=
  ⟨["moz_cookies"], fun _ => ["id", "host", "name", "value"]⟩

/-- A concrete two-row database used in concrete evaluations. -/
def exDb : List Row :=
  [⟨1, "example.com", "sid", "abc123"⟩, ⟨2, "other.org", "tok", "zzz"⟩]

/-! ## Helper lemmas -/

/-- `correct_tables_and_titles` never raises `MissingCookiesDB`. -/
theorem correct_tables_not_missing (s : Schema) (t : String) (d : LiveDb) :
    resIsMissing (correct_tables_and_titles s t d) = false := by
  unfold correct_tables_and_titles
  split
  · rfl
  · split
    · rfl
    · split <;> rfl

/-- The spec-modelled delete primitive fails when no row matches the host and
name exactly. -/
theorem specBackend_delete_missing (k : Nat) (db : List Row) (a : CookieArgs)
    (hno : ∀ r ∈ db, ¬(r.host = a.host ∧ r.name = a.name)) :
    (specBackend k).deleteCmd db a.host a.name =
      .error ("no cookie matching " ++ a.host ++ " " ++ a.name) := by
  simp only [specBackend]
  exact if_neg (by rintro ⟨r, hr, hp⟩; exact hno r hr hp)

/-! ## Claim theorems -/

/-- C6: for every backend and database state, `find_cookies` with all three
filters empty fails with the invalid-query `BrowserException` before any
database access (the trace is empty: no connection is opened), regardless of
database contents. -/
theorem find_cookies_empty_filters_rejected (b : Backend) (db : List Row) :
    find_cookies b db "" "" "" =
      ⟨.error (.browser "Please specify something to search by"), db, []⟩ := by
  unfold find_cookies
  rw [if_pos ⟨rfl, rfl, rfl⟩]

/-- C10: `find_cookies` and `dump` are read-only — for every backend,
database state and arguments, the committed database after the call equals
the database before it, and neither operation ever commits the
connection. -/
theorem find_dump_read_only (b : Backend) (db : List Row)
    (host name value : String) :
    ((find_cookies b db host name value).db = db ∧
      Event.commit ∉ (find_cookies b db host name value).trace) ∧
    ((dump b db).db = db ∧ Event.commit ∉ (dump b db).trace) := by
  constructor
  · unfold find_cookies
    split
    · exact ⟨rfl, by dsimp only; decide⟩
    · split
      · exact ⟨rfl, by dsimp only; decide⟩
      · split <;> exact ⟨rfl, by dsimp only; decide⟩
  · unfold dump
    split
    · exact ⟨rfl, by dsimp only; decide⟩
    · split <;> exact ⟨rfl, by dsimp only; decide⟩

/-- C1 counterexample: a live database from which the designated cookie table
is absent makes construction fail with a raw sqlite error (`no such table`),
not with `InvalidSchema` as the claim states. -/
theorem verify_schema_missing_table_counterexample :
    resIsOk (verify_schema exSchema "moz_cookies" emptyLive).res = false ∧
    resIsInvalidSchema (verify_schema exSchema "moz_cookies" emptyLive).res = false ∧
    resIsRaw (verify_schema exSchema "moz_cookies" emptyLive).res = true := by
  refine ⟨rfl, rfl, rfl⟩

/-- C1 (amended): schema verification succeeds exactly when the live table
list and the live column list of the designated table both equal the declared
expected lists; any deviation (order, extra or missing entries) with the
designated table still present fails with `InvalidSchema`; but when the
designated table itself is absent the failure is a raw database error, not
`InvalidSchema`.  A failed construction yields no accessor, so no operation
is possible. -/
theorem verify_schema_exact (s : Schema) (table_name : String) (d : LiveDb)
    (hmem : table_name ∈ s.tables) :
    ((verify_schema s table_name d).res = .ok () ↔
      (d.tables = s.tables ∧ d.cols table_name = s.columns)) ∧
    (table_name ∈ d.tables →
      (d.tables ≠ s.tables ∨ d.cols table_name ≠ s.columns) →
      resIsInvalidSchema (verify_schema s table_name d).res = true) ∧
    (table_name ∉ d.tables → resIsRaw (verify_schema s table_name d).res = true) := by
  unfold verify_schema correct_tables_and_titles
  by_cases h1 : table_name ∈ d.tables
  · rw [if_neg (not_not_intro h1)]
    by_cases h2 : d.tables = s.tables
    · rw [if_neg (not_not_intro h2)]
      by_cases h3 : d.cols table_name = s.columns
      · rw [if_neg (not_not_intro h3)]
        refine ⟨by simp [h2, h3], fun _ hd => ?_, fun hn => absurd h1 hn⟩
        rcases hd with hd | hd
        · exact absurd h2 hd
        · exact absurd h3 hd
      · rw [if_pos h3]
        exact ⟨by simp [h3], fun _ _ => rfl, fun hn => absurd h1 hn⟩
    · rw [if_pos h2]
      exact ⟨by simp [h2], fun _ _ => rfl, fun hn => absurd h1 hn⟩
  · rw [if_pos h1]
    refine ⟨⟨fun hc => Except.noConfusion hc, fun hand => ?_⟩,
            fun hmem2 _ => absurd hmem2 h1, fun _ => rfl⟩
    exact absurd (hand.1 ▸ hmem) h1

/-- Witness for C1 (amended): evaluated at the concrete Firefox-shaped schema
and a matching live database. -/
theorem verify_schema_exact_witness :
    ("moz_cookies" ∈ exSchema.tables) ∧
    (((verify_schema exSchema "moz_cookies" exLive).res = .ok () ↔
      (exLive.tables = exSchema.tables ∧
        exLive.cols "moz_cookies" = exSchema.columns)) ∧
    ("moz_cookies" ∈ exLive.tables →
      (exLive.tables ≠ exSchema.tables ∨
        exLive.cols "moz_cookies" ≠ exSchema.columns) →
      resIsInvalidSchema (verify_schema exSchema "moz_cookies" exLive).res = true) ∧
    ("moz_cookies" ∉ exLive.tables →
      resIsRaw (verify_schema exSchema "moz_cookies" exLive).res = true)) :=
  ⟨by decide, verify_schema_exact exSchema "moz_cookies" exLive (by decide)⟩

/-- C2 counterexample: `update_cookie` with `ignore_missing` false and a
failing delete (here: the spec-modelled delete on an empty database) returns
a `BrowserException` from an exit path on which the opened connection is
never closed — the trace opens but does not close. -/
theorem update_cookie_leak_counterexample :
    resIsBrowser (update_cookie (specBackend 0) [] sampleArgs false true).res = true ∧
    Event.opn ∈ (update_cookie (specBackend 0) [] sampleArgs false true).trace ∧
    Event.close ∉ (update_cookie (specBackend 0) [] sampleArgs false true).trace := by
  decide

/-- C7 counterexample: the fixed-width encoding is not monotone in wall-clock
time — at elapsed times 999999999.6 s and 1000000000.5 s (the second later
than the first) `_current_time` produces a numerically smaller value for the
later instant — and `_expire_time` (which has no uniqueness guard) returns
exactly equal values for the two distinct instants 1500000000.1 s and
1500000000.2 s at its default length 10. -/
theorem timestamp_counterexample :
    (999999999600000 < 1000000000500000 ∧
      current_time 1000000000500000 16 < current_time 999999999600000 16) ∧
    (1500000000100000 < 1500000000200000 ∧
      expire_time 1500000000100000 86400000000 10 =
        expire_time 1500000000200000 86400000000 10) := by
  decide

/-- C8 counterexample: a `_row_to_dict` converter that raises makes `dump`
return the raw, unwrapped exception — outside the `BrowserException` family —
so a subclass-primitive exception does escape an operation to the caller. -/
theorem dump_raw_escape_counterexample :
    resIsRaw (dump badConvBackend [⟨1, "h", "n", "v"⟩]).res = true ∧
    resIsBrowserFamily (dump badConvBackend [⟨1, "h", "n", "v"⟩]).res = false := by
  decide

/-- C3: with the spec-modelled delete primitive (which fails when there is no
cookie to remove), `update_cookie` with `ignore_missing` false on a
(host, name) pair with no matching row fails with the operation-level
`BrowserException` and leaves the committed database unchanged — no new row
is created. -/
theorem update_missing_not_ignored_fails (k : Nat) (db : List Row)
    (a : CookieArgs) (c : Bool)
    (hno : ∀ r ∈ db, ¬(r.host = a.host ∧ r.name = a.name)) :
    resIsBrowser (update_cookie (specBackend k) db a false c).res = true ∧
    (update_cookie (specBackend k) db a false c).db = db := by
  unfold update_cookie
  rw [specBackend_delete_missing k db a hno]
  exact ⟨rfl, rfl⟩

/-- Witness for C3: evaluated on the empty database with the sample
arguments. -/
theorem update_missing_not_ignored_fails_witness :
    (∀ r ∈ ([] : List Row), ¬(r.host = sampleArgs.host ∧ r.name = sampleArgs.name)) ∧
    (resIsBrowser (update_cookie (specBackend 0) [] sampleArgs false true).res = true ∧
      (update_cookie (specBackend 0) [] sampleArgs false true).db = []) :=
  ⟨fun r hr => absurd hr (List.not_mem_nil r),
    update_missing_not_ignored_fails 0 [] sampleArgs true
      (fun r hr => absurd hr (List.not_mem_nil r))⟩

/-- C4: with the spec-modelled primitives, `update_cookie` with
`ignore_missing` true on a (host, name) pair with no matching row is
observably identical to `add_cookie` with the same arguments (same result,
same committed database, same connection trace), and when the commit succeeds
the call succeeds and creates exactly one new row. -/
theorem update_ignore_missing_eq_add (k : Nat) (db : List Row)
    (a : CookieArgs) (c : Bool)
    (hno : ∀ r ∈ db, ¬(r.host = a.host ∧ r.name = a.name)) :
    update_cookie (specBackend k) db a true c = add_cookie (specBackend k) db a c ∧
    (c = true →
      (add_cookie (specBackend k) db a c).res = .ok () ∧
      (add_cookie (specBackend k) db a c).db =
        db ++ [⟨freshRowid db, a.host, a.name, a.value⟩]) := by
  constructor
  · unfold update_cookie add_cookie
    rw [specBackend_delete_missing k db a hno]
    rfl
  · intro hc
    subst hc
    exact ⟨rfl, rfl⟩

/-- Witness for C4: evaluated on the empty database with the sample
arguments and a successful commit. -/
theorem update_ignore_missing_eq_add_witness :
    (∀ r ∈ ([] : List Row), ¬(r.host = sampleArgs.host ∧ r.name = sampleArgs.name)) ∧
    (update_cookie (specBackend 0) [] sampleArgs true true =
        add_cookie (specBackend 0) [] sampleArgs true ∧
      (true = true →
        (add_cookie (specBackend 0) [] sampleArgs true).res = .ok () ∧
        (add_cookie (specBackend 0) [] sampleArgs true).db =
          [] ++ [⟨freshRowid [], sampleArgs.host, sampleArgs.name, sampleArgs.value⟩])) :=
  ⟨fun r hr => absurd hr (List.not_mem_nil r),
    update_ignore_missing_eq_add 0 [] sampleArgs true
      (fun r hr => absurd hr (List.not_mem_nil r))⟩

/-- C9: constructing the accessor with an explicitly supplied path performs no
existence check, so it never raises `MissingCookiesDB`; when no file exists at
the path, the construction outcome is exactly the outcome of schema
verification against the freshly created empty database. -/
theorem init_explicit_path_no_missing_check (s : Schema) (table_name : String)
    (d sysPlatform : String) (dbPaths : String → Option String)
    (expand : String → String) (fileExists : String → Bool)
    (fs : String → Option LiveDb) (hmiss : fs d = none) :
    (∀ m, cookie_manager_init s table_name (some d) sysPlatform dbPaths expand
        fileExists fs ≠ .error (.missingDB m)) ∧
    cookie_manager_init s table_name (some d) sysPlatform dbPaths expand
        fileExists fs =
      (match (verify_schema s table_name emptyLive).res with
       | .error e => .error e
       | .ok _ => .ok d) := by
  have hopen : openLive fs d = emptyLive := by
    unfold openLive
    rw [hmiss]
    rfl
  have heq : cookie_manager_init s table_name (some d) sysPlatform dbPaths
      expand fileExists fs =
      (match (verify_schema s table_name emptyLive).res with
       | .error e => .error e
       | .ok _ => .ok d) := by
    unfold cookie_manager_init
    dsimp only
    rw [hopen]
  refine ⟨fun m hc => ?_, heq⟩
  rw [heq] at hc
  have hnm := correct_tables_not_missing s table_name emptyLive
  revert hc
  cases hres : (verify_schema s table_name emptyLive).res with
  | error e =>
    intro hc
    have : e = .missingDB m := Except.error.inj hc
    subst this
    have : resIsMissing (correct_tables_and_titles s table_name emptyLive) = true := by
      have hcc : correct_tables_and_titles s table_name emptyLive =
          .error (.missingDB m) := hres
      rw [hcc]
      rfl
    rw [hnm] at this
    exact Bool.noConfusion this
  | ok u =>
    intro hc
    exact Except.noConfusion hc

/-- Witness for C9: evaluated at concrete construction parameters with no
file at the explicit path. -/
theorem init_explicit_path_no_missing_check_witness :
    ((fun (_ : String) => (none : Option LiveDb)) "/tmp/cookies.sqlite" = none) ∧
    ((∀ m, cookie_manager_init exSchema "moz_cookies" (some "/tmp/cookies.sqlite")
        "linux" (fun _ => none) (fun p => p) (fun _ => false)
        (fun _ => none) ≠ .error (.missingDB m)) ∧
    cookie_manager_init exSchema "moz_cookies" (some "/tmp/cookies.sqlite")
        "linux" (fun _ => none) (fun p => p) (fun _ => false) (fun _ => none) =
      (match (verify_schema exSchema "moz_cookies" emptyLive).res with
       | .error e => .error e
       | .ok _ => .ok "/tmp/cookies.sqlite")) :=
  ⟨rfl, init_explicit_path_no_missing_check exSchema "moz_cookies"
    "/tmp/cookies.sqlite" "linux" (fun _ => none) (fun p => p) (fun _ => false)
    (fun _ => none) rfl⟩

/-- In a database whose rowids are pairwise distinct, filtering by the rowid
of a member row recovers exactly that row (the per-rowid refetch of
`find_cookies` is faithful). -/
theorem filter_rowid_eq (db : List Row) (r : Row) (hmem : r ∈ db)
    (hnd : (db.map Row.rowid).Nodup) :
    db.filter (fun x => x.rowid == r.rowid) = [r] := by
  induction db with
  | nil => cases hmem
  | cons a t ih =>
    rw [List.map_cons, List.nodup_cons] at hnd
    obtain ⟨ha, hndt⟩ := hnd
    rcases List.mem_cons.mp hmem with heq | hmt
    · subst heq
      rw [List.filter_cons, if_pos (by simp)]
      have hzero : t.filter (fun x => x.rowid == r.rowid) = [] := by
        rw [List.filter_eq_nil_iff]
        intro x hx hbeq
        exact ha ((beq_iff_eq.mp hbeq) ▸ List.mem_map.mpr ⟨x, hx, rfl⟩)
      rw [hzero]
    · have hne : (a.rowid == r.rowid) = false := by
        refine beq_eq_false_iff_ne.mpr fun hra => ?_
        exact ha (hra ▸ List.mem_map.mpr ⟨r, hmt, rfl⟩)
      rw [List.filter_cons, if_neg (by rw [hne]; exact Bool.false_ne_true)]
      exact ih hmt hndt

/-- The refetch loop over the rowids of rows of a distinct-rowid database
recovers and converts exactly those rows, in order. -/
theorem findFetch_spec (k : Nat) (db : List Row)
    (hnd : (db.map Row.rowid).Nodup) :
    ∀ rs : List Row, (∀ r ∈ rs, r ∈ db) →
      findFetch (specBackend k) db (rs.map Row.rowid) =
        .ok (rs.map rowToRecord)
  | [] => fun _ => rfl
  | r :: rest => fun hsub => by
    have hr : r ∈ db := hsub r (List.mem_cons_self r rest)
    have hrest := findFetch_spec k db hnd rest
      (fun x hx => hsub x (List.mem_cons_of_mem r hx))
    have hmatch : (specBackend k).matchCmd db (some r.rowid) = .ok [r] := by
      simp only [specBackend]
      rw [filter_rowid_eq db r hr hnd]
    simp only [List.map_cons, findFetch]
    rw [hmatch, hrest]
    rfl

/-- With the spec-modelled primitives, `find_cookies` returns the converted
matching candidates, in candidate order (shared helper). -/
theorem find_cookies_spec_eq (k : Nat) (db : List Row)
    (host name value : String)
    (hne : ¬(host = "" ∧ name = "" ∧ value = ""))
    (hnd : (db.map Row.rowid).Nodup) :
    find_cookies (specBackend k) db host name value =
      ⟨.ok (((db.take k).filter (rowMatches host name value)).map rowToRecord),
        db, [Event.opn, Event.close]⟩ := by
  have hsub : ∀ r ∈ (db.take k).filter (rowMatches host name value), r ∈ db :=
    fun r hr => List.take_subset k db (List.mem_of_mem_filter hr)
  have hf := findFetch_spec k db hnd
    ((db.take k).filter (rowMatches host name value)) hsub
  unfold find_cookies
  rw [if_neg hne]
  have hsel : (specBackend k).limitedSelect db = .ok (db.take k) := rfl
  rw [hsel]
  dsimp only
  rw [hf]

/-- C5: with the spec-modelled primitives, `find_cookies` selects from the
bounded candidate set (the first `k` rows) exactly the rows for which at
least one supplied non-empty filter is a case-folded substring of the
corresponding field (logical OR), refetches each by rowid, and returns the
converted records in the order the matching rowids were collected. -/
theorem find_cookies_or_filter (k : Nat) (db : List Row)
    (host name value : String)
    (hne : ¬(host = "" ∧ name = "" ∧ value = ""))
    (hnd : (db.map Row.rowid).Nodup) :
    find_cookies (specBackend k) db host name value =
      ⟨.ok (((db.take k).filter (rowMatches host name value)).map rowToRecord),
        db, [Event.opn, Event.close]⟩ :=
  find_cookies_spec_eq k db host name value hne hnd

/-- Witness for C5: on the concrete two-row database, searching for host
substring `EXAMPLE` (case-insensitively) returns exactly the converted
`example.com` row. -/
theorem find_cookies_or_filter_witness :
    (¬("EXAMPLE" = "" ∧ "" = "" ∧ "" = "")) ∧
    ((exDb.map Row.rowid).Nodup) ∧
    find_cookies (specBackend 5) exDb "EXAMPLE" "" "" =
      ⟨.ok (((exDb.take 5).filter (rowMatches "EXAMPLE" "" "")).map rowToRecord),
        exDb, [Event.opn, Event.close]⟩ :=
  ⟨by decide, by decide,
    find_cookies_or_filter 5 exDb "EXAMPLE" "" "" (by decide) (by decide)⟩

/-- C2 (amended): the connection opened by an operation is closed on every
exit path of schema verification, `add_cookie`, `delete_cookie` and `dump`;
`update_cookie` closes on every path when `ignore_missing` is true (when it
is false a failing delete raises with the connection left open); and
`find_cookies` (with the spec-modelled primitives on a distinct-rowid
database) closes on every path (its unclosed path needs a failing
row-to-record conversion). -/
theorem connections_closed (b : Backend) (db : List Row) (a : CookieArgs)
    (c : Bool) (k : Nat) (host name value : String) (s : Schema)
    (table_name : String) (d : LiveDb)
    (hnd : (db.map Row.rowid).Nodup) :
    closedBalanced (verify_schema s table_name d).trace = true ∧
    closedBalanced (add_cookie b db a c).trace = true ∧
    closedBalanced (delete_cookie b db a.host a.name c).trace = true ∧
    closedBalanced (update_cookie b db a true c).trace = true ∧
    closedBalanced (find_cookies (specBackend k) db host name value).trace = true ∧
    closedBalanced (dump b db).trace = true := by
  refine ⟨rfl, ?_, ?_, ?_, ?_, ?_⟩
  · unfold add_cookie
    split
    · rfl
    · split <;> rfl
  · unfold delete_cookie
    split
    · rfl
    · split <;> rfl
  · unfold update_cookie
    split
    · split
      · split
        · rfl
        · split <;> rfl
      · next hfalse => exact absurd rfl hfalse
    · split
      · rfl
      · split <;> rfl
  · by_cases hcase : host = "" ∧ name = "" ∧ value = ""
    · unfold find_cookies
      rw [if_pos hcase]
      rfl
    · rw [find_cookies_spec_eq k db host name value hcase hnd]
      rfl
  · unfold dump
    split
    · rfl
    · split <;> rfl

/-- Witness for C2 (amended): evaluated at concrete operations on the
two-row database. -/
theorem connections_closed_witness :
    ((exDb.map Row.rowid).Nodup) ∧
    (closedBalanced (verify_schema exSchema "moz_cookies" exLive).trace = true ∧
    closedBalanced (add_cookie goodConvBackend exDb sampleArgs true).trace = true ∧
    closedBalanced (delete_cookie goodConvBackend exDb sampleArgs.host
      sampleArgs.name true).trace = true ∧
    closedBalanced (update_cookie goodConvBackend exDb sampleArgs true true).trace = true ∧
    closedBalanced (find_cookies (specBackend 5) exDb "EXAMPLE" "" "").trace = true ∧
    closedBalanced (dump goodConvBackend exDb).trace = true) :=
  ⟨by decide, connections_closed goodConvBackend exDb sampleArgs true 5
    "EXAMPLE" "" "" exSchema "moz_cookies" exLive (by decide)⟩

/-- When every row-to-record conversion succeeds, the refetch loop of
`find_cookies` never ends in an unwrapped conversion error. -/
theorem findFetch_no_convErr (b : Backend) (db : List Row)
    (hconv : ∀ x, strOk (b.rowToDict x) = true) :
    ∀ (ids : List Nat) (e : String), findFetch b db ids ≠ .convErr e
  | [], e => fun hc => FetchOut.noConfusion hc
  | rid :: rest, e => fun hc => by
    unfold findFetch at hc
    cases hm : b.matchCmd db (some rid) with
    | error e2 =>
      rw [hm] at hc
      exact FetchOut.noConfusion hc
    | ok fetched =>
      rw [hm] at hc
      dsimp only at hc
      cases hd : b.rowToDict fetched.head? with
      | error e2 =>
        have h2 := hconv fetched.head?
        rw [hd] at h2
        exact absurd h2 (by simp [strOk])
      | ok c =>
        rw [hd] at hc
        dsimp only at hc
        cases hrec : findFetch b db rest with
        | ok recs =>
          rw [hrec] at hc
          exact FetchOut.noConfusion hc
        | matchErr e2 =>
          rw [hrec] at hc
          exact FetchOut.noConfusion hc
        | convErr e2 => exact findFetch_no_convErr b db hconv rest e2 hrec

/-- When every row-to-record conversion succeeds, the conversion loop of
`dump` succeeds. -/
theorem dumpRows_ok (b : Backend)
    (hconv : ∀ x, strOk (b.rowToDict x) = true) :
    ∀ rows : List Row, ∃ recs, dumpRows b rows = .ok recs
  | [] => ⟨[], rfl⟩
  | r :: rest => by
    have := hconv (some r)
    obtain ⟨recs, hrec⟩ := dumpRows_ok b hconv rest
    unfold dumpRows
    cases hd : b.rowToDict (some r) with
    | error e =>
      rw [hd] at this
      exact absurd this (by simp [strOk])
    | ok c =>
      rw [hrec]
      exact ⟨c :: recs, rfl⟩

/-- C8 (amended): every exception raised by the insert, delete,
select-candidates or select-by-rowid primitives during `add_cookie`,
`delete_cookie`, `update_cookie`, `find_cookies` or `dump` is re-raised as a
`BrowserException`-family error; provided the row-to-record converter does
not raise, no unwrapped exception escapes any operation (an exception from
the converter in `find_cookies` or `dump` does escape unwrapped, as the
counterexample shows). -/
theorem errors_wrapped (b : Backend) (db : List Row) (a : CookieArgs)
    (c im : Bool) (host name value : String)
    (hconv : ∀ x, strOk (b.rowToDict x) = true) :
    resIsRaw (add_cookie b db a c).res = false ∧
    resIsRaw (delete_cookie b db a.host a.name c).res = false ∧
    resIsRaw (update_cookie b db a im c).res = false ∧
    resIsRaw (find_cookies b db host name value).res = false ∧
    resIsRaw (dump b db).res = false := by
  refine ⟨?_, ?_, ?_, ?_, ?_⟩
  · unfold add_cookie
    split
    · rfl
    · split <;> rfl
  · unfold delete_cookie
    split
    · rfl
    · split <;> rfl
  · unfold update_cookie
    split
    · split
      · split
        · rfl
        · split <;> rfl
      · rfl
    · split
      · rfl
      · split <;> rfl
  · unfold find_cookies
    split
    · rfl
    · split
      · rfl
      · split
        · rfl
        · rfl
        · next e heq =>
          exact absurd heq (findFetch_no_convErr b db hconv _ e)
  · unfold dump
    split
    · rfl
    · next rows heq =>
      obtain ⟨recs, hrec⟩ := dumpRows_ok b hconv rows
      rw [hrec]
      rfl

/-- Witness for C8 (amended): evaluated with a backend whose converter always
succeeds. -/
theorem errors_wrapped_witness :
    (∀ x, strOk (goodConvBackend.rowToDict x) = true) ∧
    (resIsRaw (add_cookie goodConvBackend exDb sampleArgs true).res = false ∧
    resIsRaw (delete_cookie goodConvBackend exDb sampleArgs.host
      sampleArgs.name true).res = false ∧
    resIsRaw (update_cookie goodConvBackend exDb sampleArgs false true).res = false ∧
    resIsRaw (find_cookies goodConvBackend exDb "EXAMPLE" "" "").res = false ∧
    resIsRaw (dump goodConvBackend exDb).res = false) :=
  ⟨fun _ => rfl, errors_wrapped goodConvBackend exDb sampleArgs true false
    "EXAMPLE" "" "" (fun _ => rfl)⟩

/-- A successful pass through the unique-timestamp guard returns a value
outside the cache of previously returned values. -/
theorem uniqueGuard_fresh (gen : Nat → Nat) (seen : List Nat) :
    ∀ (retries v : Nat), uniqueGuard gen seen retries = .ok v → v ∉ seen
  | 0, v => fun h => absurd h (fun hc => Except.noConfusion hc)
  | Nat.succ kk, v => fun h => by
    unfold uniqueGuard at h
    by_cases hmem : gen kk ∈ seen
    · rw [if_pos hmem] at h
      exact uniqueGuard_fresh gen seen kk v h
    · rw [if_neg hmem] at h
      exact (Except.ok.inj h) ▸ hmem

/-- C7 (amended): `_current_time` is called through the `unique` guard, so a
generation that succeeds returns a value different from every previously
returned one (in particular two back-to-back successful generations never
return equal values), and once the bounded retries are exhausted the guard
fails with the configured `BrowserException` rather than looping;
`_expire_time` carries no such guard, and neither helper's raw fixed-width
encoding is monotone in wall-clock time (see the counterexample). -/
theorem current_time_guarded_unique (times : Nat → Nat) (seen : List Nat)
    (retries v : Nat)
    (hok : current_time_guarded times seen retries = .ok v) :
    v ∉ seen ∧
    current_time_guarded times seen 0 =
      .error (.browser "Could not generate unique timestamp") :=
  ⟨uniqueGuard_fresh _ seen retries v hok, rfl⟩

/-- Witness for C7 (amended): a concrete guarded generation at elapsed time
1500000000.1 s with cache `[0]` succeeds with a fresh value. -/
theorem current_time_guarded_unique_witness :
    current_time_guarded (fun _ => 1500000000100000) [0] 1 =
      .ok 1500000000100000 ∧
    (1500000000100000 ∉ [0] ∧
      current_time_guarded (fun _ => 1500000000100000) [0] 0 =
        .error (.browser "Could not generate unique timestamp")) :=
  ⟨by decide, current_time_guarded_unique (fun _ => 1500000000100000) [0] 1
    1500000000100000 (by decide)⟩

end CookieEater
